import Mathlib

/-!
Verification of the advanced-vector repository (src/advanced-vector/vector.h):
a shallow embedding of the `RawMemory<T>` storage block and the `Vector<T>`
dynamic array, together with theorems settling the frozen claims about them.

Machine addresses are modelled as `Option Nat` (`none` = null pointer); the
identity of an owned storage region is modelled as a `blockId : Nat`; the live
element area `[0, size)` of a vector is modelled as a `List`; `size_` is the
list's length except where a bug makes the counter diverge from the live
content, in which case the counter is tracked separately.
-/

namespace AdvVector

/-- Model of `RawMemory<T>`: an owning handle on a raw region. `buffer` is the
region's address (`none` = null), `capacity` the number of element slots. -/
structure RawMemory where
  buffer : Option Nat
  capacity : Nat
deriving DecidableEq

/-- RawMemory move constructor as written in the source:
`buffer_(std::move(other.GetAddress())), capacity_(other.Capacity())`.
`GetAddress()` returns the pointer by value, so `std::move` of it merely copies
the pointer; nothing is written back into `other`. Returns
(destination just constructed, source after the call). -/
def RawMemory.moveCtor (other : RawMemory) : RawMemory × RawMemory :=
  ({ buffer := other.buffer, capacity := other.capacity }, other)

/-- RawMemory move assignment as written in the source:
`buffer_ = std::move(rhs.GetAddress()); capacity_ = rhs.Capacity();`.
Again only reads from `rhs`. Returns (lhs after, rhs after). -/
def RawMemory.moveAssign (_lhs rhs : RawMemory) : RawMemory × RawMemory :=
  ({ buffer := rhs.buffer, capacity := rhs.capacity }, rhs)

/-- Model of `Vector<T>`: the identity of the owned storage block, the live
elements `data_[0 .. size_)`, and the block's capacity `data_.Capacity()`. -/
structure Vector (α : Type) where
  blockId : Nat
  elems : List α
  cap : Nat
deriving DecidableEq

variable {α : Type}

/-- Capacity chosen for a growth event: `Capacity() == 0 ? 1 : Capacity() * 2`
(both `Emplace` and `EmplaceBack` use this expression when full). -/
def growCap (c : Nat) : Nat := if c = 0 then 1 else c * 2

/-- Vector::EmplaceBack, success path (element construction and relocation do
not fail). If spare capacity exists the element is constructed in place;
otherwise a new block (`freshId`) of doubled capacity is populated and swapped
in by `MoveOrCopy`. -/
def Vector.emplaceBack (v : Vector α) (freshId : Nat) (x : α) : Vector α :=
  if v.elems.length < v.cap then
    { v with elems := v.elems ++ [x] }
  else
    { blockId := freshId, elems := v.elems ++ [x], cap := growCap v.cap }

/-- Vector::PushBack (both overloads): delegates to EmplaceBack, appending the
argument's value. -/
def Vector.pushBack (v : Vector α) (x : α) : Vector α := v.emplaceBack 0 x

/-- Vector::PopBack: `destroy_n(data_ + size_ - 1, 1); size_ -= 1`.
Precondition (spec): the vector is not empty. -/
def Vector.popBack (v : Vector α) : Vector α := { v with elems := v.elems.dropLast }

/-- Vector::Reserve, relocation assumed not to fail (move path, or all copies
succeed): no-op when `new_capacity <= Capacity()`, otherwise `MoveOrCopy` into
a fresh block of exactly the requested capacity. -/
def Vector.reserve (v : Vector α) (freshId n : Nat) : Vector α :=
  if n ≤ v.cap then v else { blockId := freshId, elems := v.elems, cap := n }

/-- Vector copy constructor: `data_(other.size_), size_(other.size_)` then
`uninitialized_copy_n`; allocates a fresh block of exactly `other.size_` slots. -/
def Vector.copyCtor (other : Vector α) (freshId : Nat) : Vector α :=
  { blockId := freshId, elems := other.elems, cap := other.elems.length }

/-- Vector::operator=(const Vector&). `same` models `this == &rhs`; `copyOk`
models whether the element-wise copy construction of the temporary in the
reallocating branch succeeds (if it fails the temporary's partial content is
destroyed and the receiver is untouched). The in-capacity branch mirrors the
source: `copy_n` over the shared area, then either `destroy_n` of the excess
slots or `uninitialized_copy_n` of the extra source elements. -/
def Vector.copyAssign (dst src : Vector α) (same : Bool) (freshId : Nat)
    (copyOk : Bool) : Except Unit Unit × Vector α :=
  if same then (Except.ok (), dst)
  else if dst.cap < src.elems.length then
    if copyOk then (Except.ok (), Vector.copyCtor src freshId)
    else (Except.error (), dst)
  else if src.elems.length ≤ dst.elems.length then
    (Except.ok (),
      { dst with
        elems := (src.elems.take src.elems.length
          ++ dst.elems.drop src.elems.length).take src.elems.length })
  else
    (Except.ok (),
      { dst with
        elems := (src.elems.take dst.elems.length
            ++ dst.elems.drop dst.elems.length)
          ++ src.elems.drop dst.elems.length })

/-- Vector::operator=(Vector&&): guarded by `this != &rhs` (modelled by `same`),
then `data_.Swap(rhs.data_); std::swap(size_, rhs.size_)` — a full exchange.
Returns (lhs after, rhs after). -/
def Vector.moveAssign (dst src : Vector α) (same : Bool) : Vector α × Vector α :=
  if same then (dst, src) else (src, dst)

/-- C5: the spec says move-construction/move-assignment of a Storage Block
leave the source empty (null address, capacity 0). The source code only copies
the pointer (`std::move` applied to the by-value result of `GetAddress()`), so
the moved-from RawMemory keeps its address and capacity — both handles now own
the same region and both destructors will deallocate it. Evaluated at the
failing input: a block at address 7 with capacity 1. -/
theorem rawMemory_moveCtor_source_not_emptied :
    (RawMemory.moveCtor { buffer := some 7, capacity := 1 }).2 =
      { buffer := some 7, capacity := 1 } := rfl

/-- C4 counterexample: move-assigning A = ⟨[1]⟩ into B = ⟨[2]⟩ exchanges the
two vectors, so A ends holding B's former element; its size is 1, not 0 as the
claim states. -/
theorem moveAssign_source_not_empty :
    ((Vector.moveAssign (⟨0, [2], 1⟩ : Vector Nat) ⟨1, [1], 1⟩ false).2
      ).elems.length ≠ 0 := by decide

/-- C4 (amended): for distinct vectors, move-assigning A into B makes B equal
to A's pre-move state and leaves A holding B's pre-move state — the blocks and
sizes are exchanged; in particular A ends empty exactly when B was empty. -/
theorem moveAssign_exchanges (dst src : Vector α) :
    (Vector.moveAssign dst src false).1 = src ∧
      (Vector.moveAssign dst src false).2 = dst :=
  ⟨rfl, rfl⟩

/-- C9: both assignment operators first test `this != &rhs`; with the operands
aliased (`same = true`) they return immediately, leaving the vector unchanged
(same block, same elements, same capacity) and raising nothing. -/
theorem selfAssign_identity (v : Vector α) (fid : Nat) (copyOk : Bool) :
    (v.copyAssign v true fid copyOk).2 = v ∧
      (v.copyAssign v true fid copyOk).1 = Except.ok () ∧
      (Vector.moveAssign v v true).1 = v ∧ (Vector.moveAssign v v true).2 = v :=
  ⟨rfl, rfl, rfl, rfl⟩

/-- Value category and constness of a C++ argument expression. -/
inductive ValueCat
  | constLval
  | nonconstLval
  | constRval
  | nonconstRval
deriving DecidableEq

/-- std::move: casts to an rvalue, keeping constness. -/
def stdMove : ValueCat → ValueCat
  | ValueCat.constLval => ValueCat.constRval
  | ValueCat.constRval => ValueCat.constRval
  | ValueCat.nonconstLval => ValueCat.nonconstRval
  | ValueCat.nonconstRval => ValueCat.nonconstRval

/-- Which constructor of T a forwarded argument binds to. -/
inductive CtorChoice
  | copy
  | move
deriving DecidableEq

/-- Overload resolution for `T(std::forward<Args>(args)...)` with one argument:
`T(T&&)` accepts only a non-const rvalue; every other category, including a
const rvalue, binds to `T(const T&)`. -/
def resolveCtor : ValueCat → CtorChoice
  | ValueCat.nonconstRval => CtorChoice.move
  | _ => CtorChoice.copy

/-- An argument object together with a moved-from marker. -/
structure ArgObj (α : Type) where
  value : α
  movedFrom : Bool
deriving DecidableEq

/-- Effect of invoking the chosen constructor from the argument object: a copy
reads it, a move also marks it moved-from. Returns (constructed value,
argument object after). -/
def applyCtor : CtorChoice → ArgObj α → α × ArgObj α
  | CtorChoice.copy, a => (a.value, a)
  | CtorChoice.move, a => (a.value, { a with movedFrom := true })

/-- Vector::PushBack(const T& value): the body is `EmplaceBack(std::move(value))`
where `value` is a const lvalue, so EmplaceBack's placement-new resolves the
constructor via `resolveCtor (stdMove constLval)`. -/
def Vector.pushBackConstRef (v : Vector α) (a : ArgObj α) : Vector α × ArgObj α :=
  let c := resolveCtor (stdMove ValueCat.constLval)
  let p := applyCtor c a
  (v.emplaceBack 0 p.1, p.2)

/-- Shared helper: EmplaceBack appends the constructed value in both capacity
branches. -/
theorem emplaceBack_elems (v : Vector α) (fid : Nat) (x : α) :
    (v.emplaceBack fid x).elems = v.elems ++ [x] := by
  unfold Vector.emplaceBack
  split <;> rfl

/-- C10: PushBack(const T&) forwards a const rvalue, which cannot bind to the
move constructor, so the new element is copy-constructed; the argument object
is unchanged after the call (not marked moved-from) and its value is appended. -/
theorem pushBack_const_ref_copies (v : Vector α) (a : ArgObj α) :
    (v.pushBackConstRef a).2 = a ∧
      (v.pushBackConstRef a).1.elems = v.elems ++ [a.value] :=
  ⟨rfl, emplaceBack_elems v 0 a.value⟩

/-- A pushBack/popBack program step. -/
inductive Op (α : Type)
  | push : α → Op α
  | pop : Op α

/-- Run a sequence of PushBack/PopBack calls on a Vector; PopBack on an empty
vector is undefined behavior (the spec forbids it), modelled as `none`. -/
def runVector : Vector α → List (Op α) → Option (Vector α)
  | v, [] => some v
  | v, Op.push x :: rest => runVector (v.pushBack x) rest
  | v, Op.pop :: rest =>
      if v.elems.isEmpty then none else runVector v.popBack rest

/-- Modelled from the spec: the reference list model — push appends, pop
removes the last element, pop on an empty list is forbidden. -/
def runModel : List α → List (Op α) → Option (List α)
  | l, [] => some l
  | l, Op.push x :: rest => runModel (l ++ [x]) rest
  | l, Op.pop :: rest => if l.isEmpty then none else runModel l.dropLast rest

/-- Shared helper: the refinement invariant, generalized over the start state. -/
theorem runVector_model_aux (ops : List (Op α)) :
    ∀ v : Vector α, (runVector v ops).map Vector.elems = runModel v.elems ops := by
  induction ops with
  | nil => intro v; rfl
  | cons op rest ih =>
      intro v
      cases op with
      | push x =>
          show (runVector (v.pushBack x) rest).map Vector.elems
            = runModel (v.elems ++ [x]) rest
          rw [ih (v.pushBack x), Vector.pushBack, emplaceBack_elems]
      | pop =>
          show (if v.elems.isEmpty then none
              else runVector v.popBack rest).map Vector.elems
            = if v.elems.isEmpty then none else runModel v.elems.dropLast rest
          by_cases h : v.elems.isEmpty
          · rw [if_pos h, if_pos h]; rfl
          · rw [if_neg h, if_neg h, ih v.popBack]; rfl

/-- C8: any sequence of PushBack/PopBack operations starting from the empty
vector produces, element for element and in order, the same content as the
reference list model run on the same sequence (and is defined exactly when the
model is, i.e. when no pop hits an empty container). -/
theorem pushPop_refines_list_model (ops : List (Op α)) :
    (runVector (⟨0, [], 0⟩ : Vector α) ops).map Vector.elems = runModel [] ops :=
  runVector_model_aux ops ⟨0, [], 0⟩

/-- Semantics of `uninitialized_value_construct_n` over `count` slots with the
given per-slot constructor outcomes: on the first failing construction the
elements already built by this call are destroyed and the error is rethrown
(the standard guarantee of the algorithm). -/
def constructN : List (Except Unit α) → Nat → Except Unit (List α)
  | _, 0 => Except.ok []
  | [], _ + 1 => Except.error ()
  | Except.error e :: _, _ + 1 => Except.error e
  | Except.ok x :: rest, k + 1 => (constructN rest k).map (fun l => x :: l)

/-- Vector::EmplaceBack with a fallible construction of the new element
(relocation itself assumed non-failing). In the spare-capacity branch the
element is constructed at `data_ + size_`; on failure nothing was modified.
In the overflow branch the new block is allocated, the element is constructed
at `new_data + size_` first; on failure the block is released and the vector
is untouched, the error propagating. -/
def Vector.emplaceBackF (v : Vector α) (fid : Nat) (mk : Except Unit α) :
    Except Unit Unit × Vector α :=
  if v.elems.length < v.cap then
    match mk with
    | Except.error e => (Except.error e, v)
    | Except.ok x => (Except.ok (), { v with elems := v.elems ++ [x] })
  else
    match mk with
    | Except.error e => (Except.error e, v)
    | Except.ok x =>
        (Except.ok (),
          { blockId := fid, elems := v.elems ++ [x], cap := growCap v.cap })

/-- Vector::Resize with fallible default construction of the newly exposed
slots. Shrinking destroys the excess; growing first calls Reserve (relocation
assumed non-failing), then value-constructs `new_size - size_` elements; if one
of those constructions fails, the ones built by this call are destroyed and the
error propagates before `size_` is updated. -/
def Vector.resizeF (v : Vector α) (fid n : Nat) (mks : List (Except Unit α)) :
    Except Unit Unit × Vector α :=
  if n < v.elems.length then
    (Except.ok (), { v with elems := v.elems.take n })
  else
    let r := v.reserve fid n
    match constructN mks (n - v.elems.length) with
    | Except.error e => (Except.error e, r)
    | Except.ok newElems => (Except.ok (), { r with elems := r.elems ++ newElems })

/-- Shared helper: Reserve never changes the live elements. -/
theorem reserve_elems (v : Vector α) (fid n : Nat) :
    (v.reserve fid n).elems = v.elems := by
  unfold Vector.reserve
  split <;> rfl

/-- C6: when constructing the new element(s) fails, EmplaceBack leaves the
vector exactly as it was, and a growing Resize leaves the size and all existing
elements unchanged (only the capacity may already have grown); in both cases
the error propagates to the caller. -/
theorem emplaceBack_resize_ctor_failure (v : Vector α) (fid n : Nat)
    (mks : List (Except Unit α)) (hn : v.elems.length ≤ n)
    (hmk : constructN mks (n - v.elems.length) = Except.error ()) :
    (v.emplaceBackF fid (Except.error ())).1 = Except.error () ∧
      (v.emplaceBackF fid (Except.error ())).2 = v ∧
      (v.resizeF fid n mks).1 = Except.error () ∧
      (v.resizeF fid n mks).2.elems = v.elems := by
  refine ⟨?_, ?_, ?_, ?_⟩
  · unfold Vector.emplaceBackF; split <;> rfl
  · unfold Vector.emplaceBackF; split <;> rfl
  · unfold Vector.resizeF
    rw [if_neg (by omega), hmk]
  · unfold Vector.resizeF
    rw [if_neg (by omega), hmk]
    exact reserve_elems v fid n

/-- C6 witness: a vector of one element, capacity 1; EmplaceBack whose element
construction fails, and Resize to 3 whose second new element's construction
fails, both leave the element [1] and the size unchanged and report the error. -/
theorem emplaceBack_resize_ctor_failure_witness :
    ((⟨0, [1], 1⟩ : Vector Nat).emplaceBackF 1 (Except.error ())).1
        = Except.error () ∧
      ((⟨0, [1], 1⟩ : Vector Nat).emplaceBackF 1 (Except.error ())).2
        = ⟨0, [1], 1⟩ ∧
      ((⟨0, [1], 1⟩ : Vector Nat).resizeF 1 3 [Except.ok 5, Except.error ()]).1
        = Except.error () ∧
      ((⟨0, [1], 1⟩ : Vector Nat).resizeF 1 3 [Except.ok 5, Except.error ()]).2.elems
        = [1] :=
  emplaceBack_resize_ctor_failure ⟨0, [1], 1⟩ 1 3 [Except.ok 5, Except.error ()]
    (by decide) rfl

/-- C7: for distinct vectors (distinct blocks, and a fresh block id for any
reallocation), copy assignment makes the receiver element-wise equal to the
source while its storage block stays distinct from the source's (so later
mutation of the source cannot alias the receiver); when the source fits in the
receiver's capacity the receiver's own block and capacity are reused (no
reallocation); and in the reallocating branch a failed copy leaves the receiver
untouched with the error reported. -/
theorem copyAssign_correct (dst src : Vector α) (fid : Nat)
    (hdistinct : dst.blockId ≠ src.blockId) (hfresh : fid ≠ src.blockId) :
    ((dst.copyAssign src false fid true).2).elems = src.elems ∧
      ((dst.copyAssign src false fid true).2).blockId ≠ src.blockId ∧
      (src.elems.length ≤ dst.cap →
        ((dst.copyAssign src false fid true).2).blockId = dst.blockId ∧
          ((dst.copyAssign src false fid true).2).cap = dst.cap) ∧
      (dst.cap < src.elems.length →
        (dst.copyAssign src false fid false).1 = Except.error () ∧
          (dst.copyAssign src false fid false).2 = dst) := by
  by_cases hbig : dst.cap < src.elems.length
  · refine ⟨?_, ?_, fun h => absurd h (by omega), fun _ => ⟨?_, ?_⟩⟩ <;>
      simp [Vector.copyAssign, Vector.copyCtor, hbig, hfresh]
  · by_cases hle : src.elems.length ≤ dst.elems.length
    · refine ⟨?_, ?_, fun _ => ⟨?_, ?_⟩, fun h => absurd h hbig⟩ <;>
        simp [Vector.copyAssign, hbig, hle, hdistinct,
          List.take_length, List.take_left]
    · refine ⟨?_, ?_, fun _ => ⟨?_, ?_⟩, fun h => absurd h hbig⟩ <;>
        simp [Vector.copyAssign, hbig, hle, hdistinct,
          List.drop_length, List.take_append_drop]

/-- C7 witness: receiver ⟨block 0, [7], cap 1⟩, source ⟨block 1, [4,5], cap 1⟩,
fresh block 2: the reallocating branch runs, giving [4,5] in a block distinct
from the source's, and when the copy fails the receiver is untouched. -/
theorem copyAssign_correct_witness :
    (((⟨0, [7], 1⟩ : Vector Nat).copyAssign ⟨1, [4, 5], 1⟩ false 2 true).2).elems
        = [4, 5] ∧
      (((⟨0, [7], 1⟩ : Vector Nat).copyAssign ⟨1, [4, 5], 1⟩ false 2 true).2).blockId
        ≠ 1 ∧
      ((2 : Nat) ≤ 1 →
        (((⟨0, [7], 1⟩ : Vector Nat).copyAssign ⟨1, [4, 5], 1⟩ false 2 true).2).blockId
            = 0 ∧
          (((⟨0, [7], 1⟩ : Vector Nat).copyAssign ⟨1, [4, 5], 1⟩ false 2 true).2).cap
            = 1) ∧
      ((1 : Nat) < 2 →
        (((⟨0, [7], 1⟩ : Vector Nat).copyAssign ⟨1, [4, 5], 1⟩ false 2 false).1
            = Except.error () ∧
          ((⟨0, [7], 1⟩ : Vector Nat).copyAssign ⟨1, [4, 5], 1⟩ false 2 false).2
            = ⟨0, [7], 1⟩)) :=
  copyAssign_correct ⟨0, [7], 1⟩ ⟨1, [4, 5], 1⟩ 2 (by decide) (by decide)

/-- Semantics of Erase's shifting loop on the suffix starting at the erase
position: `*iter = std::move(*std::next(iter, 1))` for each iterator from the
position up to `end() - 1`, i.e. slot j receives the original content of slot
j + 1, the final slot keeping its (moved-from, here value-preserving) content. -/
def shiftSuffix : List α → List α
  | [] => []
  | [x] => [x]
  | _ :: x :: rest => x :: shiftSuffix (x :: rest)

/-- Vector::Erase on the nothrow-move-assignable path: run the shifting loop
from index i, `destroy_at(begin() + size_ - 1)` (drop the last slot),
`size_ -= 1`, and return `&data_[pos - begin()]`, i.e. the cursor index i.
Returns (vector after, returned cursor index). -/
def Vector.eraseImpl (v : Vector α) (i : Nat) : Vector α × Nat :=
  ({ v with elems := (v.elems.take i ++ shiftSuffix (v.elems.drop i)).dropLast }, i)

/-- Shared helper: the shifting loop never empties a non-empty suffix. -/
theorem shiftSuffix_ne_nil (x : α) (t : List α) : shiftSuffix (x :: t) ≠ [] := by
  cases t <;> simp [shiftSuffix]

/-- Shared helper: shifting then dropping the trailing slot removes exactly the
first element of the suffix. -/
theorem shiftSuffix_dropLast (x : α) (t : List α) :
    (shiftSuffix (x :: t)).dropLast = t := by
  induction t generalizing x with
  | nil => rfl
  | cons y rest ih =>
      show (y :: shiftSuffix (y :: rest)).dropLast = y :: rest
      rw [List.dropLast_cons_of_ne_nil (shiftSuffix_ne_nil y rest), ih y]

/-- C3: on the well-defined path (element move assignment cannot fail), Erase
at a valid index i removes exactly the i-th element (all following elements
shift one slot toward the front, the trailing slot is destroyed), the size
drops by exactly one, and the returned cursor index is i — which addresses the
element formerly at i + 1, or equals the new size (end()) when the erased
element was the last. -/
theorem erase_nothrow_shift (v : Vector α) (i : Nat) (h : i < v.elems.length) :
    (v.eraseImpl i).1.elems = v.elems.take i ++ v.elems.drop (i + 1) ∧
      (v.eraseImpl i).1.elems.length = v.elems.length - 1 ∧
      (v.eraseImpl i).2 = i := by
  have hdrop : v.elems.drop i = v.elems[i] :: v.elems.drop (i + 1) :=
    List.drop_eq_getElem_cons h
  have hmain : (v.eraseImpl i).1.elems = v.elems.take i ++ v.elems.drop (i + 1) := by
    show (v.elems.take i ++ shiftSuffix (v.elems.drop i)).dropLast
      = v.elems.take i ++ v.elems.drop (i + 1)
    rw [hdrop]
    rw [List.dropLast_append_of_ne_nil _ (shiftSuffix_ne_nil _ _)]
    rw [shiftSuffix_dropLast]
  refine ⟨hmain, ?_, rfl⟩
  rw [hmain]
  simp only [List.length_append, List.length_take, List.length_drop]
  omega

/-- C3 witness: erasing index 1 from [1, 2, 3] yields [1, 3], size 2, and the
returned cursor index 1 (now addressing the former third element). -/
theorem erase_nothrow_shift_witness :
    ((⟨0, [1, 2, 3], 3⟩ : Vector Nat).eraseImpl 1).1.elems = [1, 3] ∧
      ((⟨0, [1, 2, 3], 3⟩ : Vector Nat).eraseImpl 1).1.elems.length = 2 ∧
      ((⟨0, [1, 2, 3], 3⟩ : Vector Nat).eraseImpl 1).2 = 1 :=
  erase_nothrow_shift ⟨0, [1, 2, 3], 3⟩ 1 (by decide)

/-- Observable outcome of the growth branch of Vector::Emplace.
`raised`: whether an error propagated to the caller; `sizeCtr`: the `size_`
counter after the call; `slots`: the contents of the block held by `data_`
after the call, slot by slot (`none` = no live element constructed there);
`blockFreed`: whether that block's raw memory has already been deallocated;
`retIndex`: the slot index of the returned cursor (`&data_[offset]`). -/
structure EmplacePost (α : Type) where
  raised : Bool
  sizeCtr : Nat
  slots : List (Option α)
  blockFreed : Bool
  retIndex : Nat
deriving DecidableEq

/-- Semantics of `uninitialized_copy_n` with fallible element copies: `ok j`
says whether copy-constructing the j-th source element of this call succeeds.
On a failure the copies already made by this call are destroyed and the error
is rethrown (the standard guarantee); `none` models that rethrow. -/
def uninitCopyN : List α → (Nat → Bool) → Option (List α)
  | [], _ => some []
  | x :: rest, ok =>
      if ok 0 then (uninitCopyN rest (fun i => ok (i + 1))).map (fun l => x :: l)
      else none

/-- Growth branch of Vector::Emplace (entered when `Capacity() <= size_`) on
the copy-relocation path — taken when the element type's move construction may
fail and the type is copy-constructible. Mirrors the source statement by
statement:
1. `RawMemory new_data(Capacity() == 0 ? 1 : Capacity() * 2)`;
2. `new (new_data + offset) T(args...)` — slot `offset` of the new block now
   holds the new element `x` (its construction assumed to succeed here);
3. inside `try`: `uninitialized_copy_n(data_, offset, new_data)` then
   `uninitialized_copy_n(data_ + offset, distance(pos, cend()),
   new_data + offset)` — note the second copy targets `new_data + offset`, the
   slot already holding the new element, not `new_data + offset + 1`;
4. on a copy failure the `catch` runs `destroy_at(new_data + offset)` and
   `new_data.~RawMemory()` and then FALLS THROUGH without rethrowing;
5. `destroy_n(data_, size_)` destroys all original elements,
   `data_.Swap(new_data)` installs the new block (already destructed when the
   catch ran), and `++size_`.
When the first copy call fails, everything constructed in the new block has
been destroyed; when the second fails, the copies made by the completed first
call are never destroyed and stay behind in the freed block. -/
def Vector.emplaceGrowCopy (v : Vector α) (offset : Nat) (x : α)
    (ok : Nat → Bool) : EmplacePost α :=
  let n := growCap v.cap
  match uninitCopyN (v.elems.take offset) ok with
  | none =>
      { raised := false
        sizeCtr := v.elems.length + 1
        slots := List.replicate n none
        blockFreed := true
        retIndex := offset }
  | some built =>
      match uninitCopyN (v.elems.drop offset) (fun i => ok (offset + i)) with
      | none =>
          { raised := false
            sizeCtr := v.elems.length + 1
            slots := built.map some ++ List.replicate (n - built.length) none
            blockFreed := true
            retIndex := offset }
      | some suffixCopies =>
          { raised := false
            sizeCtr := v.elems.length + 1
            slots :=
              built.map some ++
                (match suffixCopies with
                 | [] => some x :: List.replicate (n - built.length - 1) none
                 | s =>
                     s.map some
                       ++ List.replicate (n - built.length - s.length) none)
            blockFreed := false
            retIndex := offset }

/-- C1: claim refuted at a failing input. A full vector (one element 5,
capacity 1) of a copy-relocated element type, `Emplace(begin(), 9)` where the
copy-construction of the existing element into the new block fails: the claim
requires the pre-call state (size 1, element 5 live) and the error re-raised,
but the code swallows the error (`raised = false`), destroys every original
element, installs the already-destructed new block (`blockFreed = true`,
no live slot anywhere) and bumps the size counter to 2. -/
theorem emplace_copy_failure_swallowed :
    Vector.emplaceGrowCopy (⟨0, [5], 1⟩ : Vector Nat) 0 9 (fun _ => false) =
      { raised := false
        sizeCtr := 2
        slots := [none, none]
        blockFreed := true
        retIndex := 0 } := rfl

/-- C2: claim refuted at a failing input even with every copy succeeding. For
the full vector [10, 20] (capacity 2) of a copy-relocated element type,
`Emplace(begin(), 99)` should produce [99, 10, 20] with the returned cursor on
99; instead the suffix is copied to `new_data + offset` rather than
`new_data + offset + 1`, overwriting the just-constructed element: the block
ends as [10, 20, —, —] with the size counter at 3 (the third counted slot
holds no constructed element) and the returned cursor (index 0) addresses the
old first element 10 — the new element 99 is nowhere. -/
theorem emplace_copy_suffix_clobbers_new_element :
    Vector.emplaceGrowCopy (⟨0, [10, 20], 2⟩ : Vector Nat) 0 99 (fun _ => true) =
      { raised := false
        sizeCtr := 3
        slots := [some 10, some 20, none, none]
        blockFreed := false
        retIndex := 0 } := rfl

end AdvVector
